import Mathlib

/-!
Shallow embedding of the per-guild playback sequencer of `music_bot.py`
(a Discord music bot).  Machine-level collaborators (the Discord guild,
the voice client, yt-dlp resolution, FFmpeg start success) are modelled
as explicit parameters; the per-guild queue is the `List Song` threaded
through each operation.  Every definition is translated from the source
file, branch for branch, in the order the source checks them.
-/

/-- The `Song` dataclass of the source: url, title, canonical link,
duration in seconds (a Python `int`), direct stream url, requester
(modelled by a numeric user id). -/
structure Song where
  url : String
  title : String
  webpage_url : String
  duration : Int
  audio_url : String
  requested_by : Nat
deriving DecidableEq, Repr

/-- The observable voice-client surface used by the source:
`is_connected()`, `is_playing()`, `is_paused()`. -/
structure VoiceClient where
  is_connected : Bool
  is_playing : Bool
  is_paused : Bool
deriving DecidableEq, Repr

/-- A sink is absent or disconnected: `guild.voice_client` is `None`, or
it reports `is_connected() == False`. -/
def sink_absent : Option VoiceClient → Bool
  | none => true
  | some v => !v.is_connected

/-- Outcome of one `start_next_song` evaluation: the guild queue after the
call, the song (if any) for which `voice_client.play` was issued and
accepted, and the songs whose `play` call raised, in the order their
errors were logged. -/
structure StartResult where
  queue : List Song
  started : Option Song
  errors : List Song
deriving DecidableEq, Repr

/-- `start_next_song(guild_id, bot)` from the source.  Parameters:
`guildExists` models `bot.get_guild(guild_id) is not None`; `vc` models
`guild.voice_client`; `ok song` models whether `voice_client.play` on
that song's stream succeeds (raises iff `ok song = false`).  The source
checks, in order: guild missing (return), queue empty (return), client
absent/disconnected (clear the queue, return), client busy (return),
then plays the head; if `play` raises it pops the head (the source
guards the pop with `queue[0] == song`, which holds here because the
head was read on this same evaluation) and recurses on the rest. -/
def start_next_song (guildExists : Bool) (vc : Option VoiceClient)
    (ok : Song → Bool) : List Song → StartResult
  | [] =>
    -- the source checks the guild first, then the empty queue; on an
    -- empty queue both returns leave the (empty) queue unchanged
    if guildExists = false then { queue := [], started := none, errors := [] }
    else { queue := [], started := none, errors := [] }
  | song :: rest =>
    if guildExists = false then
      { queue := song :: rest, started := none, errors := [] }
    else
      match vc with
      | none => { queue := [], started := none, errors := [] }
      | some v =>
        if v.is_connected = false then { queue := [], started := none, errors := [] }
        else if v.is_playing || v.is_paused then
          { queue := song :: rest, started := none, errors := [] }
        else if ok song then
          { queue := song :: rest, started := some song, errors := [] }
        else
          let r := start_next_song guildExists vc ok rest
          { queue := r.queue, started := r.started, errors := song :: r.errors }

/-- Outcome of the `_after_play` completion callback: whether a player
error was logged, the queue right after the callback's own pop, and the
result of the single `start_next_song` re-evaluation it schedules. -/
structure AfterResult where
  logged : Bool
  popped : List Song
  next : StartResult
deriving DecidableEq, Repr

/-- The `_after_play(error)` completion callback from the source: log the
error if one was reported, pop the head of the guild queue if the queue
is nonempty (`if q: q.pop(0)`), then run `start_next_song` once on the
updated queue. -/
def after_play (error : Option String) (guildExists : Bool)
    (vc : Option VoiceClient) (ok : Song → Bool) (queue : List Song) : AfterResult :=
  let q := match queue with
    | [] => []
    | _ :: rest => rest
  { logged := error.isSome
    popped := q
    next := start_next_song guildExists vc ok q }

/-- Two-digit zero padding, as Python's `{x:02d}` format on the
nonnegative minute/second fields. -/
def pad2 (n : Int) : String :=
  if n < 10 then "0" ++ toString n else toString n

/-- `format_duration(seconds)` from the source.  `if not seconds` is true
for Python `None` and for `0`, giving `"unknown"`; otherwise
`m, s = divmod(int(seconds), 60)` and `h, m = divmod(m, 60)` are floor
division and floor remainder (`Int.fdiv` / `Int.fmod`), and the string is
`f"{h}:{m:02d}:{s:02d}"` when `h` is nonzero, else `f"{m}:{s:02d}"`. -/
def format_duration : Option Int → String
  | none => "unknown"
  | some seconds =>
    if seconds = 0 then "unknown"
    else
      let m := Int.fdiv seconds 60
      let s := Int.fmod seconds 60
      let hrs := Int.fdiv m 60
      let mins := Int.fmod m 60
      if hrs ≠ 0 then toString hrs ++ ":" ++ pad2 mins ++ ":" ++ pad2 s
      else toString mins ++ ":" ++ pad2 s

/-- The display format exactly as claim C10 words it, for a positive
duration `n`: `h:mm:ss` (minutes and seconds zero-padded to two digits)
when `n ≥ 3600`, and `m:ss` otherwise, with `h = n / 3600`,
`mm = (n / 60) mod 60`, `m = n / 60`, `ss = n mod 60`.  Written from the
claim's words, to be compared against `format_duration`. -/
def format_duration_claimed (n : Int) : String :=
  if 3600 ≤ n then
    toString (Int.fdiv n 3600) ++ ":" ++ pad2 (Int.fmod (Int.fdiv n 60) 60)
      ++ ":" ++ pad2 (Int.fmod n 60)
  else
    toString (Int.fdiv n 60) ++ ":" ++ pad2 (Int.fmod n 60)

/-- Replies of the `/play` command, one per `followup.send` site. -/
inductive PlayReply where
  | onlyInServer
  | notInVoice
  | joinFailed
  | resolveFailed
  | nowPlaying
  | addedAt (pos : Nat)
deriving DecidableEq, Repr

/-- Outcome of one `/play` invocation: the guild queue afterwards, the
voice client afterwards, the reply sent, and the `start_next_song`
result when the command invoked it. -/
structure PlayResult where
  queue : List Song
  vc : Option VoiceClient
  reply : PlayReply
  start : Option StartResult
deriving DecidableEq, Repr

/-- The join-or-move block of `/play`: if the client is `None` or not
connected, `voice_channel.connect()` is awaited (fresh connected, idle
client); else if the user's channel differs, `move_to` is awaited
(client kept).  `connect_ok` models whether the awaited call raises;
`none` is the `except` path. -/
def join_or_move (vc0 : Option VoiceClient) (same_channel connect_ok : Bool) :
    Option VoiceClient :=
  match vc0 with
  | none => if connect_ok then some ⟨true, false, false⟩ else none
  | some v =>
    if v.is_connected = false then
      if connect_ok then some ⟨true, false, false⟩ else none
    else if same_channel then some v
    else if connect_ok then some v else none

/-- `play_cmd(interaction, url)` from the source.  Checks in source
order: no guild; user not in a voice channel; join-or-move (failure
replies and returns, queue untouched); `fetch_song` (`resolved = none`
is the `except` path, queue untouched); append the song; then, if the
client is neither playing nor paused, call `start_next_song` and reply
now-playing, else reply with the 1-based position `len(queue)` after the
append. -/
def play_cmd (guildExists in_voice : Bool) (vc0 : Option VoiceClient)
    (same_channel connect_ok : Bool) (resolved : Option Song)
    (ok : Song → Bool) (queue : List Song) : PlayResult :=
  if guildExists = false then
    { queue := queue, vc := vc0, reply := .onlyInServer, start := none }
  else if in_voice = false then
    { queue := queue, vc := vc0, reply := .notInVoice, start := none }
  else
    match join_or_move vc0 same_channel connect_ok with
    | none => { queue := queue, vc := vc0, reply := .joinFailed, start := none }
    | some v =>
      match resolved with
      | none => { queue := queue, vc := some v, reply := .resolveFailed, start := none }
      | some song =>
        let q1 := queue ++ [song]
        if !v.is_playing && !v.is_paused then
          let r := start_next_song true (some v) ok q1
          { queue := r.queue, vc := some v, reply := .nowPlaying, start := some r }
        else
          { queue := q1, vc := some v, reply := .addedAt q1.length, start := none }

/-- Replies of the `/skip` command. -/
inductive SkipReply where
  | onlyInServer
  | notConnected
  | nothingPlaying
  | skipped
deriving DecidableEq, Repr

/-- Outcome of one `/skip` invocation: the guild queue afterwards (the
command itself never touches it), the reply, and whether
`voice_client.stop()` was called. -/
structure SkipResult where
  queue : List Song
  reply : SkipReply
  stop_called : Bool
deriving DecidableEq, Repr

/-- `skip_cmd(interaction)` from the source: no guild, then client
absent or disconnected, then neither playing nor paused, each replying
and returning; otherwise `voice_client.stop()` is called (the queue is
advanced only by the completion callback that this triggers). -/
def skip_cmd (guildExists : Bool) (vc : Option VoiceClient)
    (queue : List Song) : SkipResult :=
  if guildExists = false then
    { queue := queue, reply := .onlyInServer, stop_called := false }
  else
    match vc with
    | none => { queue := queue, reply := .notConnected, stop_called := false }
    | some v =>
      if v.is_connected = false then
        { queue := queue, reply := .notConnected, stop_called := false }
      else if !v.is_playing && !v.is_paused then
        { queue := queue, reply := .nothingPlaying, stop_called := false }
      else
        { queue := queue, reply := .skipped, stop_called := true }

/-- Replies of the `/stop` command. -/
inductive StopReply where
  | onlyInServer
  | stopped
deriving DecidableEq, Repr

/-- Outcome of one `/stop` invocation. -/
structure StopResult where
  queue : List Song
  reply : StopReply
  stop_called : Bool
deriving DecidableEq, Repr

/-- `stop_cmd(interaction)` from the source: no guild replies and
returns; otherwise the queue is cleared unconditionally, then
`voice_client.stop()` is called only if a client exists and is playing
or paused. -/
def stop_cmd (guildExists : Bool) (vc : Option VoiceClient)
    (queue : List Song) : StopResult :=
  if guildExists = false then
    { queue := queue, reply := .onlyInServer, stop_called := false }
  else
    match vc with
    | none => { queue := [], reply := .stopped, stop_called := false }
    | some v =>
      if v.is_playing || v.is_paused then
        { queue := [], reply := .stopped, stop_called := true }
      else
        { queue := [], reply := .stopped, stop_called := false }

/-- Replies of the `/leave` command. -/
inductive LeaveReply where
  | onlyInServer
  | left
  | notConnected
deriving DecidableEq, Repr

/-- Outcome of one `/leave` invocation. -/
structure LeaveResult where
  queue : List Song
  reply : LeaveReply
  disconnected : Bool
deriving DecidableEq, Repr

/-- `leave_cmd(interaction)` from the source: no guild replies and
returns; otherwise the queue is cleared unconditionally FIRST, then if a
connected client exists it is disconnected, else the not-connected reply
is sent (with the queue already cleared). -/
def leave_cmd (guildExists : Bool) (vc : Option VoiceClient)
    (queue : List Song) : LeaveResult :=
  if guildExists = false then
    { queue := queue, reply := .onlyInServer, disconnected := false }
  else
    match vc with
    | none => { queue := [], reply := .notConnected, disconnected := false }
    | some v =>
      if v.is_connected then
        { queue := [], reply := .left, disconnected := true }
      else
        { queue := [], reply := .notConnected, disconnected := false }

/-- Concrete track used by witnesses and counterexamples. -/
def songA : Song :=
  { url := "a", title := "A", webpage_url := "linkA", duration := 100
    audio_url := "streamA", requested_by := 1 }

/-- Second concrete track used by witnesses. -/
def songB : Song :=
  { url := "b", title := "B", webpage_url := "linkB", duration := 200
    audio_url := "streamB", requested_by := 2 }

/-- A sink that accepts every play call. -/
def okAll : Song → Bool := fun _ => true

/-- A sink that accepts exactly the tracks titled "B" (so `songA` fails
to start and `songB` starts). -/
def okOnlyB : Song → Bool := fun s => s.title == "B"

/-- A connected, idle voice client. -/
def vcIdle : VoiceClient := ⟨true, false, false⟩

/-- A connected voice client that is currently playing. -/
def vcBusy : VoiceClient := ⟨true, true, false⟩

/-- Full characterization of `start_next_song` on an existing guild with
a connected, idle client: the failing front segment of the queue is
dropped and logged, and the first track the sink accepts (if any) is
started and kept at the head. -/
theorem start_next_char (v : VoiceClient) (ok : Song → Bool) (q : List Song)
    (hc : v.is_connected = true) (hb : (v.is_playing || v.is_paused) = false) :
    start_next_song true (some v) ok q =
      { queue := q.dropWhile (fun s => !ok s)
        started := (q.dropWhile (fun s => !ok s)).head?
        errors := q.takeWhile (fun s => !ok s) } := by
  induction q with
  | nil => simp [start_next_song]
  | cons s rest ih =>
    cases hok : ok s with
    | true =>
      simp [start_next_song, hc, hb, hok, List.dropWhile_cons, List.takeWhile_cons]
    | false =>
      simp [start_next_song, hc, hb, hok, List.dropWhile_cons, List.takeWhile_cons, ih]

/-- The queue an evaluation of `start_next_song` leaves behind is always
a suffix of the queue it was given: the evaluation only ever drops
tracks from the front (failed starts), or clears to `[]`. -/
theorem start_next_queue_suffix (g : Bool) (vc : Option VoiceClient)
    (ok : Song → Bool) (q : List Song) :
    (start_next_song g vc ok q).queue <:+ q := by
  cases q with
  | nil => cases g <;> simp [start_next_song]
  | cons s rest =>
    cases g with
    | false => simp [start_next_song]
    | true =>
      cases vc with
      | none => simp [start_next_song]
      | some v =>
        cases hcon : v.is_connected with
        | false => simp [start_next_song, hcon]
        | true =>
          cases hb : v.is_playing || v.is_paused with
          | true => simp [start_next_song, hcon, hb]
          | false =>
            rw [start_next_char v ok (s :: rest) hcon hb]
            exact List.dropWhile_suffix _

/-- On every positive duration the source's `format_duration` agrees
with the display format the claim describes: `h:mm:ss` exactly when the
duration is at least 3600 seconds, `m:ss` below that. -/
theorem format_duration_pos (n : Int) (hn : 0 < n) :
    format_duration (some n) = format_duration_claimed n := by
  have hne : ¬ (n = 0) := by omega
  have e1 : Int.fdiv n 60 = n / 60 := Int.fdiv_eq_ediv n (by norm_num)
  have e2 : Int.fmod n 60 = n % 60 := Int.fmod_eq_emod n (by norm_num)
  have e3 : Int.fdiv (n / 60) 60 = n / 60 / 60 := Int.fdiv_eq_ediv _ (by norm_num)
  have e4 : Int.fmod (n / 60) 60 = n / 60 % 60 := Int.fmod_eq_emod _ (by norm_num)
  have e5 : Int.fdiv n 3600 = n / 3600 := Int.fdiv_eq_ediv n (by norm_num)
  have key1 : n / 60 / 60 = n / 3600 := by omega
  simp only [format_duration, format_duration_claimed, if_neg hne, e1, e2, e3, e4, e5,
    key1]
  by_cases hc : 3600 ≤ n
  · rw [if_pos (show n / 3600 ≠ 0 by omega), if_pos hc]
  · rw [if_neg (show ¬ (n / 3600 ≠ 0) by omega), if_neg hc]
    have hm : n / 60 % 60 = n / 60 := by omega
    rw [hm]

/-- C1: every delivery of the completion signal for a guild's current
track, whatever the cause (`error` some or none), pops exactly the head
of the queue, exactly once (the queue after the pop is the tail, one
shorter), and re-evaluates start-next exactly once on the updated queue;
the re-evaluation can only drop further tracks from the front, never
restore or re-pop the finished one, and the pop and re-evaluation are
identical whether or not an error was reported. -/
theorem after_play_pops_once_reevaluates_once (e : Option String) (g : Bool)
    (vc : Option VoiceClient) (ok : Song → Bool) (s : Song) (rest : List Song) :
    (after_play e g vc ok (s :: rest)).popped = rest
    ∧ (after_play e g vc ok (s :: rest)).popped.length + 1 = (s :: rest).length
    ∧ (after_play e g vc ok (s :: rest)).next = start_next_song g vc ok rest
    ∧ (after_play e g vc ok (s :: rest)).next.queue <:+ rest
    ∧ (after_play e g vc ok (s :: rest)).popped = (after_play none g vc ok (s :: rest)).popped
    ∧ (after_play e g vc ok (s :: rest)).next = (after_play none g vc ok (s :: rest)).next
    ∧ (after_play e g vc ok (s :: rest)).logged = e.isSome := by
  refine ⟨rfl, rfl, rfl, ?_, rfl, rfl, rfl⟩
  exact start_next_queue_suffix g vc ok rest

/-- C2: when the voice sink reports currently playing or paused,
start-next evaluation is an idempotent no-op — the queue is returned
unchanged, no play call is issued and no error is logged. -/
theorem start_next_busy_noop (g : Bool) (v : VoiceClient) (ok : Song → Bool)
    (q : List Song) (hc : v.is_connected = true)
    (hb : (v.is_playing || v.is_paused) = true) :
    start_next_song g (some v) ok q = { queue := q, started := none, errors := [] } := by
  cases q with
  | nil => cases g <;> simp [start_next_song]
  | cons s rest =>
    cases g with
    | false => simp [start_next_song]
    | true => simp [start_next_song, hc, hb]

/-- Witness for C2 at a concrete busy sink and nonempty queue. -/
theorem start_next_busy_noop_witness :
    vcBusy.is_connected = true
    ∧ (vcBusy.is_playing || vcBusy.is_paused) = true
    ∧ start_next_song true (some vcBusy) okAll [songA] =
        { queue := [songA], started := none, errors := [] } :=
  ⟨rfl, rfl, start_next_busy_noop true vcBusy okAll [songA] rfl rfl⟩

/-- C4: when the sink rejects the play call for the head track, one
evaluation step pops exactly that track, logs exactly that track at the
head of the error list, and immediately recurses on the rest of the
queue; in general the logged errors are exactly the failing front
segment, and if any track in the queue is playable a start is issued, so
a bad track never stalls the queue. -/
theorem start_next_play_failure_drops_one (v : VoiceClient) (ok : Song → Bool)
    (song : Song) (rest : List Song) (hc : v.is_connected = true)
    (hb : (v.is_playing || v.is_paused) = false) (hfail : ok song = false) :
    start_next_song true (some v) ok (song :: rest) =
      { queue := (start_next_song true (some v) ok rest).queue
        started := (start_next_song true (some v) ok rest).started
        errors := song :: (start_next_song true (some v) ok rest).errors }
    ∧ (start_next_song true (some v) ok (song :: rest)).errors =
        (song :: rest).takeWhile (fun t => !ok t)
    ∧ ((∃ t ∈ song :: rest, ok t = true) →
        (start_next_song true (some v) ok (song :: rest)).started.isSome = true) := by
  refine ⟨by simp [start_next_song, hc, hb, hfail], ?_, ?_⟩
  · rw [start_next_char v ok (song :: rest) hc hb]
  · intro hex
    rw [start_next_char v ok (song :: rest) hc hb]
    simp only [List.head?_isSome, ne_eq, List.dropWhile_eq_nil_iff, Bool.not_eq_true,
      not_forall]
    obtain ⟨t, ht, hok⟩ := hex
    exact ⟨t, ht, by simp [hok]⟩

/-- Witness for C4: the spec's own scenario — queue `[A, B]`, play
fails for `A`, so `A` is dropped and logged alone and `B` starts. -/
theorem start_next_play_failure_drops_one_witness :
    start_next_song true (some vcIdle) okOnlyB [songA, songB] =
      { queue := [songB], started := some songB, errors := [songA] } := by
  have h := start_next_play_failure_drops_one vcIdle okOnlyB songA [songB]
    rfl rfl (by decide)
  rw [h.1]
  decide

/-- C5 counterexample: one enqueue performed on an Idle guild with an
absent sink does not accumulate the track.  The `/play` command attempts
to join first; when joining fails it returns without appending, so the
queue stays empty rather than holding the enqueued track — and a
start-next evaluation with an absent sink clears a nonempty queue
instead of preserving it. -/
theorem enqueue_disconnected_counterexample :
    (play_cmd true true none true false (some songA) okAll []).queue ≠ [songA]
    ∧ (play_cmd true true none true false (some songA) okAll []).queue = []
    ∧ (play_cmd true true none true false (some songA) okAll []).reply = .joinFailed
    ∧ (start_next_song true none okAll [songA]).queue = [] := by
  decide

/-- C5 amended: enqueueing on a guild with an absent or disconnected
sink never accumulates tracks.  If the join attempt fails the command
fails with the queue exactly unchanged, nothing appended and no playback
started; and any start-next evaluation that runs with an absent or
disconnected sink clears a nonempty queue (nowhere to play) rather than
letting it accumulate. -/
theorem enqueue_disconnected_no_accumulation (vc0 : Option VoiceClient)
    (same_channel : Bool) (resolved : Option Song) (ok : Song → Bool)
    (q : List Song) (habs : sink_absent vc0 = true) :
    (play_cmd true true vc0 same_channel false resolved ok q).queue = q
    ∧ (play_cmd true true vc0 same_channel false resolved ok q).reply = .joinFailed
    ∧ (play_cmd true true vc0 same_channel false resolved ok q).start = none
    ∧ (∀ vc1 (q1 : List Song), sink_absent vc1 = true → q1 ≠ [] →
        (start_next_song true vc1 ok q1).queue = []) := by
  have hjoin : join_or_move vc0 same_channel false = none := by
    cases vc0 with
    | none => simp [join_or_move]
    | some v =>
      simp only [sink_absent, Bool.not_eq_true'] at habs
      simp [join_or_move, habs]
  refine ⟨?_, ?_, ?_, ?_⟩
  · simp [play_cmd, hjoin]
  · simp [play_cmd, hjoin]
  · simp [play_cmd, hjoin]
  · intro vc1 q1 habs1 hne
    match q1, hne with
    | s :: r, _ =>
      cases vc1 with
      | none => simp [start_next_song]
      | some v1 =>
        simp only [sink_absent, Bool.not_eq_true'] at habs1
        simp [start_next_song, habs1]

/-- Witness for C5 amended at a concrete absent sink and track. -/
theorem enqueue_disconnected_no_accumulation_witness :
    sink_absent none = true
    ∧ (play_cmd true true none true false (some songB) okAll [songA]).queue = [songA]
    ∧ (start_next_song true none okAll [songB]).queue = [] := by
  have h := enqueue_disconnected_no_accumulation none true (some songB) okAll [songA] rfl
  exact ⟨rfl, h.1, h.2.2.2 none [songB] rfl (by decide)⟩

/-- C6: `/stop` on a guild clears the queue to length 0 and replies
success regardless of the prior sink state or queue contents; it is
idempotent — on an already idle guild with an empty queue it succeeds,
changes nothing and issues no sink stop; and a completion signal that
later finds the emptied queue pops nothing and starts nothing, so the
sequencer stays idle. -/
theorem stop_clears_and_idempotent (vc : Option VoiceClient) (q : List Song) :
    (stop_cmd true vc q).queue = []
    ∧ (stop_cmd true vc q).reply = .stopped
    ∧ (∀ v, (v.is_playing || v.is_paused) = false →
        stop_cmd true (some v) [] =
          { queue := [], reply := .stopped, stop_called := false })
    ∧ stop_cmd true none [] = { queue := [], reply := .stopped, stop_called := false }
    ∧ (∀ (e : Option String) (g : Bool) (vc2 : Option VoiceClient) (ok : Song → Bool),
        (after_play e g vc2 ok ([] : List Song)).next.queue = []
        ∧ (after_play e g vc2 ok ([] : List Song)).next.started = none) := by
  refine ⟨?_, ?_, ?_, by simp [stop_cmd], ?_⟩
  · cases vc with
    | none => simp [stop_cmd]
    | some v => by_cases hv : (v.is_playing || v.is_paused) = true <;> simp [stop_cmd, hv]
  · cases vc with
    | none => simp [stop_cmd]
    | some v => by_cases hv : (v.is_playing || v.is_paused) = true <;> simp [stop_cmd, hv]
  · intro v hv
    simp [stop_cmd, hv]
  · intro e g vc2 ok
    cases g <;> simp [after_play, start_next_song]

/-- Witness for C6 at a busy sink with a nonempty queue, and the
idempotent invocation on an idle guild with an empty queue. -/
theorem stop_clears_and_idempotent_witness :
    (stop_cmd true (some vcBusy) [songA, songB]).queue = []
    ∧ stop_cmd true (some vcIdle) [] =
        { queue := [], reply := .stopped, stop_called := false } :=
  ⟨(stop_clears_and_idempotent (some vcBusy) [songA, songB]).1,
   (stop_clears_and_idempotent (some vcBusy) [songA, songB]).2.2.1 vcIdle rfl⟩

/-- C7 counterexample: `/leave` on a guild with no connected sink does
have a side effect — the queue is cleared before the connection check,
so a queue holding one track is emptied even though the reply is the
not-connected failure.  The claim's "queue left exactly as it was" is
false here. -/
theorem leave_not_connected_counterexample :
    (leave_cmd true none [songA]).reply = .notConnected
    ∧ (leave_cmd true none [songA]).disconnected = false
    ∧ (leave_cmd true none [songA]).queue = []
    ∧ (leave_cmd true none [songA]).queue ≠ [songA] := by
  decide

/-- C7 amended: `/leave` always clears the queue first, like `/stop`;
when a connected sink exists it additionally disconnects it and reports
success, and when no sink is connected it reports that state and does
not disconnect — but the queue has already been cleared, not left as it
was. -/
theorem leave_clears_then_reports (vc : Option VoiceClient) (q : List Song) :
    (leave_cmd true vc q).queue = []
    ∧ (leave_cmd true vc q).disconnected = !sink_absent vc
    ∧ ((leave_cmd true vc q).reply = .notConnected ↔ sink_absent vc = true)
    ∧ ((leave_cmd true vc q).reply = .left ↔ sink_absent vc = false) := by
  cases vc with
  | none => simp [leave_cmd, sink_absent]
  | some v => cases hv : v.is_connected <;> simp [leave_cmd, sink_absent, hv]

/-- C8: `/skip` never mutates the queue itself, whatever the context;
and when the sink is connected but neither playing nor paused it fails
with the nothing-playing reply and does not call the sink's stop, so no
completion signal and no advancement can result. -/
theorem skip_idle_fails_queue_unchanged (g : Bool) (vc : Option VoiceClient)
    (q : List Song) :
    (skip_cmd g vc q).queue = q
    ∧ (∀ v, vc = some v → v.is_connected = true →
        (v.is_playing || v.is_paused) = false → g = true →
        (skip_cmd g vc q).reply = .nothingPlaying
        ∧ (skip_cmd g vc q).stop_called = false) := by
  constructor
  · cases g with
    | false => simp [skip_cmd]
    | true =>
      cases vc with
      | none => simp [skip_cmd]
      | some v =>
        by_cases hcon : v.is_connected = false
        · simp [skip_cmd, hcon]
        · by_cases hb : (!v.is_playing && !v.is_paused) = true <;>
            simp [skip_cmd, hcon, hb]
  · intro v hvc hcon hidle hg
    subst hvc; subst hg
    have hb : (!v.is_playing && !v.is_paused) = true := by
      simp only [← Bool.not_or, hidle, Bool.not_false]
    simp [skip_cmd, hcon, hb]

/-- Witness for C8: skip on a connected, idle sink with a one-track
queue fails and leaves the queue unchanged. -/
theorem skip_idle_fails_queue_unchanged_witness :
    (skip_cmd true (some vcIdle) [songA]).queue = [songA]
    ∧ (skip_cmd true (some vcIdle) [songA]).reply = .nothingPlaying
    ∧ (skip_cmd true (some vcIdle) [songA]).stop_called = false :=
  ⟨(skip_idle_fails_queue_unchanged true (some vcIdle) [songA]).1,
   ((skip_idle_fails_queue_unchanged true (some vcIdle) [songA]).2 vcIdle rfl rfl rfl rfl).1,
   ((skip_idle_fails_queue_unchanged true (some vcIdle) [songA]).2 vcIdle rfl rfl rfl rfl).2⟩

/-- C9: enqueueing while the sink is playing or paused only appends the
track at the tail, reports the 1-based tail position (the queue length
after the append), does not invoke start-next and leaves the sink
untouched. -/
theorem enqueue_while_playing_appends_only (v : VoiceClient) (connect_ok : Bool)
    (song : Song) (ok : Song → Bool) (q : List Song)
    (hc : v.is_connected = true) (hb : (v.is_playing || v.is_paused) = true) :
    play_cmd true true (some v) true connect_ok (some song) ok q =
      { queue := q ++ [song], vc := some v, reply := .addedAt (q.length + 1)
        start := none } := by
  have hbusy : (!v.is_playing && !v.is_paused) = false := by
    simp only [← Bool.not_or, hb, Bool.not_true]
  simp [play_cmd, join_or_move, hc, hbusy]

/-- Witness for C9: the spec's scenario — track B enqueued while A plays
is reported at position 2 and is not started. -/
theorem enqueue_while_playing_appends_only_witness :
    play_cmd true true (some vcBusy) true true (some songB) okAll [songA] =
      { queue := [songA, songB], vc := some vcBusy, reply := .addedAt 2
        start := none } := by
  have h := enqueue_while_playing_appends_only vcBusy true songB okAll [songA] rfl rfl
  rw [h]
  decide

/-- C10: `format_duration` returns "unknown" for a missing duration and
for a duration of exactly 0 seconds (so a genuine zero-length track is
displayed as "unknown", never as "0:00"), and on every positive duration
it agrees with the claimed display format: `h:mm:ss` with two-digit
minutes and seconds exactly when the duration is at least 3600 seconds,
and `m:ss` otherwise. -/
theorem format_duration_spec_ok :
    format_duration none = "unknown"
    ∧ format_duration (some 0) = "unknown"
    ∧ ("unknown" : String) ≠ "0:00"
    ∧ ∀ n : Int, 0 < n → format_duration (some n) = format_duration_claimed n :=
  ⟨rfl, rfl, by decide, fun n hn => format_duration_pos n hn⟩

/-- Witness for C10 at the concrete duration 3661 = 1h 1m 1s. -/
theorem format_duration_spec_ok_witness :
    0 < (3661 : Int)
    ∧ format_duration (some 3661) = format_duration_claimed 3661
    ∧ format_duration (some 3661) = "1:01:01" :=
  ⟨by decide, format_duration_spec_ok.2.2.2 3661 (by decide), by decide⟩
